import Mathlib

/-
Verification of the tax-compliance dashboard computation engine.

The engine (`process_data` in the source) receives a tabular dataset, a
fiscal year and a tax-type string.  It resolves aliased headers, detects
payment columns whose header parses to a date in the fiscal year, derives
per-row active months, payment counts and a compliance score, and `main`
bins the score into a three-label category.

The embedding below mirrors the source line by line:
  * a `DataFrame` is an ordered header list plus rows of cells;
  * a `Cell` carries the semantic content of a heterogeneous pandas cell:
    `num q` for a cell whose content parses as a number under
    `pd.to_numeric(errors='coerce')`, `date d` for a cell parseable by
    `pd.to_datetime(errors='coerce')`, `text`/`null` otherwise;
  * header normalisation (`.str.strip().str.upper()`) is modelled by
    structurally recursive character-list functions so that concrete
    datasets evaluate inside the kernel;
  * the four header date-parse strategies of lines 50-56 are parameters
    (`fa fb fc fd`) of the embedding, since they call into the pandas
    datetime parser; concrete witnesses instantiate strategy (a) with a
    faithful model of `to_datetime(format='%b-%y')` on the headers used;
  * the in-place mutation of the working frame is modelled by explicit
    state passing: `process_data` threads a `PdState` holding the caller's
    frame (`df_input`) and the working copy (`df`), and returns the final
    content of the caller's frame as its second component.
-/

/-- Calendar date at day granularity, as carried by a `pd.Timestamp`. -/
structure Tanggal where
  year : ℤ
  month : ℤ
  day : ℤ
deriving DecidableEq

/-- Lexicographic order on dates, as used by `pd.Timestamp` comparison. -/
def tanggalLe (a b : Tanggal) : Bool :=
  decide (a.year < b.year ∨ (a.year = b.year ∧
    (a.month < b.month ∨ (a.month = b.month ∧ a.day ≤ b.day))))

/-- Strict lexicographic order on dates. -/
def tanggalLt (a b : Tanggal) : Bool :=
  decide (a.year < b.year ∨ (a.year = b.year ∧
    (a.month < b.month ∨ (a.month = b.month ∧ a.day < b.day))))

/-- Python `max` of two timestamps: the second argument only wins when it
is strictly greater (for equal dates both sides coincide). -/
def maxTanggal (a b : Tanggal) : Tanggal :=
  if tanggalLe a b then b else a

/-- One cell of the raw table.  `num q` stands for any cell whose content
parses as a number, `date d` for any cell parseable as a datetime. -/
inductive Cell where
  | num (q : ℚ)
  | date (d : Tanggal)
  | text (s : String)
  | null
deriving DecidableEq

/-- Model of `pd.to_numeric(errors='coerce')` on one cell. -/
def toNumeric : Cell → Option ℚ
  | Cell.num q => some q
  | _ => none

/-- Model of `pd.to_datetime(errors='coerce')` on one cell. -/
def toDatetime : Cell → Option Tanggal
  | Cell.date d => some d
  | _ => none

/-- A pandas dataframe: ordered column headers plus row-major cells, each
row positionally aligned with the header list. -/
structure DataFrame where
  cols : List String
  rows : List (List Cell)
deriving DecidableEq

/-- ASCII whitespace test, modelling Python `str.strip`'s notion of
whitespace for the headers in scope. -/
def isWs (c : Char) : Bool :=
  decide (c = ' ' ∨ c = '\t' ∨ c = '\n' ∨ c = '\r')

/-- Strip whitespace from both ends of a character list. -/
def trimChars (l : List Char) : List Char :=
  ((l.dropWhile isWs).reverse.dropWhile isWs).reverse

/-- Model of Python `str.strip()`. -/
def sStrip (s : String) : String := ⟨trimChars s.data⟩

/-- Model of Python `str.upper()` (ASCII headers). -/
def sUpper (s : String) : String := ⟨s.data.map Char.toUpper⟩

/-- Header normalisation of line 9: `df.columns.str.strip().str.upper()`. -/
def normalizeHeaders (df : DataFrame) : DataFrame :=
  ⟨df.cols.map (fun c => sUpper (sStrip c)), df.rows⟩

/-- Alias list for the unit/payer-name field (line 12). -/
def aliasNmUnit : List String := ["NM UNIT", "NAMA UNIT", "UPPPD", "UNIT", "UNIT PAJAK"]

/-- Alias list for the status field (line 13). -/
def aliasStatus : List String := ["STATUS"]

/-- Alias list for the activation-date field (line 14). -/
def aliasTmt : List String := ["TMT"]

/-- Alias list for the classification field (line 15). -/
def aliasKlasifikasi : List String := ["KLASIFIKASI", "KATEGORI", "JENIS"]

/-- The `find_column` helper of lines 18-22: first alias present among the
(normalised) headers, else `none`. -/
def find_column (cols : List String) : List String → Option String
  | [] => none
  | n :: rest => if n ∈ cols then some n else find_column cols rest

/-- Rename one header according to the rename map of lines 35-40. -/
def renameOne (kNm kSt kTmt : String) (kKl : Option String) (c : String) : String :=
  if c = kNm then "NM UNIT"
  else if c = kSt then "STATUS"
  else if c = kTmt then "TMT"
  else if kKl = some c then "KLASIFIKASI"
  else c

/-- The rename of lines 35-40 applied to a frame (headers only; cells are
positional). -/
def renameCols (df : DataFrame) (kNm kSt kTmt : String) (kKl : Option String) : DataFrame :=
  ⟨df.cols.map (renameOne kNm kSt kTmt kKl), df.rows⟩

/-- Index of the first occurrence of a header (length of the list when
absent), modelling pandas name-based column lookup. -/
def colIdx : List String → String → ℕ
  | [], _ => 0
  | c :: cs, n => if c = n then 0 else colIdx cs n + 1

/-- Name-based cell lookup in one row. -/
def cellOf (cols : List String) (r : List Cell) (name : String) : Cell :=
  r.getD (colIdx cols name) Cell.null

/-- All cells of one named column. -/
def colCells (df : DataFrame) (name : String) : List Cell :=
  df.rows.map (fun r => cellOf df.cols r name)

/-- Line 42: `df['TMT'] = pd.to_datetime(df['TMT'], errors='coerce')`. -/
def convertTmtCol (df : DataFrame) : DataFrame :=
  ⟨df.cols, df.rows.map (fun r =>
    r.set (colIdx df.cols "TMT")
      (match toDatetime (r.getD (colIdx df.cols "TMT") Cell.null) with
        | some d => Cell.date d
        | none => Cell.null))⟩

/-- The canonical column names skipped by the payment-column loop
(line 46). -/
def canonicalCols : List String := ["NM UNIT", "STATUS", "TMT", "KLASIFIKASI"]

/-- The ordered date-parse chain of lines 50-56: each strategy is tried in
turn and the first success short-circuits the rest. -/
def parseChain (fa fb fc fd : String → Option Tanggal) (s : String) : Option Tanggal :=
  match fa s with
  | some d => some d
  | none =>
    match fb s with
    | some d => some d
    | none =>
      match fc s with
      | some d => some d
      | none => fd s

/-- Acceptance test of lines 48-60 for one candidate column: skip the
canonical columns, parse the stripped header through the chain, require
the parsed year to equal the fiscal year and the column to contain at
least one numeric cell. -/
def acceptCol (fa fb fc fd : String → Option Tanggal) (df : DataFrame) (tahun : ℤ)
    (col : String) : Bool :=
  if col ∈ canonicalCols then false
  else
    match parseChain fa fb fc fd (sStrip col) with
    | none => false
    | some d => decide (d.year = tahun) && (colCells df col).any (fun c => (toNumeric c).isSome)

/-- The `payment_cols` list of lines 44-61: accepted columns in header
order. -/
def payment_cols (fa fb fc fd : String → Option Tanggal) (df : DataFrame) (tahun : ℤ) :
    List String :=
  df.cols.filter (acceptCol fa fb fc fd df tahun)

/-- Parsed amounts of one row over the payment columns
(`pd.to_numeric(row[payment_cols], errors='coerce')`). -/
def rowPayments (df : DataFrame) (pcols : List String) (r : List Cell) : List (Option ℚ) :=
  pcols.map (fun c => toNumeric (cellOf df.cols r c))

/-- Line 66 for one row: sum of the parsed amounts, non-numeric cells
skipped (pandas `sum` treats `NaN` as zero). -/
def totalPembayaran (ps : List (Option ℚ)) : ℚ :=
  (ps.map (fun p => p.getD 0)).sum

/-- Lines 68-77 for one row: active months from the activation date. -/
def bulan_aktif (tahun : ℤ) : Option Tanggal → ℤ
  | none => 0
  | some tmt =>
    let start := maxTanggal ⟨tahun, 1, 1⟩ tmt
    let e : Tanggal := ⟨tahun, 12, 31⟩
    max 0 ((e.year - start.year) * 12 + (e.month - start.month) + 1)

/-- Line 80 for one row: number of strictly positive parsed amounts
(`NaN > 0` is false in pandas, so a missing amount never counts). -/
def jumlah_pembayaran (ps : List (Option ℚ)) : ℕ :=
  ps.countP (fun p => decide (0 < p.getD 0))

/-- Binary payment indicator of line 85: `1` iff the parsed amount
(missing treated as `0` by `fillna(0)`) is strictly positive. -/
def indicator (p : Option ℚ) : ℕ :=
  if 0 < p.getD 0 then 1 else 0

/-- One step of the gap loop of lines 88-94, on the state
`(gap, max_gap)`. -/
def gapStep (s : ℕ × ℕ) (v : ℕ) : ℕ × ℕ :=
  if v = 0 then (s.1 + 1, max (s.1 + 1) s.2) else (0, s.2)

/-- The `max_gap` computed by the loop of lines 86-94. -/
def maxGap (l : List ℕ) : ℕ :=
  (l.foldl gapStep (0, 0)).2

/-- Rounding to two decimal places, modelling Python `round(x, 2)` on the
score.  Tie-breaking differences between float banker's rounding and
rational rounding are unreachable here: with `aktif ≤ 12` the quantity
`count / aktif * 100 * 100` is never half-integral, since that would force
`2^5` to divide `aktif`. -/
def round2 (q : ℚ) : ℚ :=
  ((round (q * 100) : ℤ) : ℚ) / 100

/-- The `hitung_kepatuhan` score of lines 82-99 for one row, given the
parsed payment amounts and the row's active months. -/
def hitung_kepatuhan (ps : List (Option ℚ)) (aktif : ℤ) : ℚ :=
  let bayar := ps.map indicator
  let mg := maxGap bayar
  if aktif = 0 then 0
  else if mg < 3 then 100
  else round2 (((jumlah_pembayaran ps : ℚ)) / ((aktif : ℚ)) * 100)

/-- Derived cells appended to one row by lines 66, 78, 80 and 101, in
column order `Total Pembayaran`, `Bulan Aktif`, `Jumlah Pembayaran`,
`Kepatuhan (%)`.  The presentation formatting of lines 103-104 turns the
two monetary columns into fixed-point strings; the numeric value is kept
here, which is the value those strings denote and the value `main`
re-parses for categorisation. -/
def augmentRow (df : DataFrame) (pcols : List String) (tahun : ℤ) (r : List Cell) :
    List Cell :=
  let ps := rowPayments df pcols r
  let aktif := bulan_aktif tahun (toDatetime (cellOf df.cols r "TMT"))
  r ++ [Cell.num (totalPembayaran ps), Cell.num ((aktif : ℚ)),
    Cell.num ((jumlah_pembayaran ps : ℚ)), Cell.num (hitung_kepatuhan ps aktif)]

/-- The augmented frame produced by lines 66-104. -/
def augment (df : DataFrame) (pcols : List String) (tahun : ℤ) : DataFrame :=
  ⟨df.cols ++ ["Total Pembayaran", "Bulan Aktif", "Jumlah Pembayaran", "Kepatuhan (%)"],
    df.rows.map (augmentRow df pcols tahun)⟩

/-- Errors raised by `process_data` (lines 30, 33, 64). -/
inductive PErr where
  | missingRequired
  | missingKlasifikasi
  | noPaymentCols
deriving DecidableEq

/-- Mutable state of `process_data`: the caller's frame `df_input` and the
working frame `df` created by `df_input.copy()` on line 8.  Every
subsequent statement of the source mutates only the `df` component. -/
structure PdState where
  caller : DataFrame
  df : DataFrame

/-- Line 8: `df = df_input.copy()` — the working frame starts as an
independent copy of the caller's frame. -/
def stInit (dfInput : DataFrame) : PdState := ⟨dfInput, dfInput⟩

/-- Line 9: header normalisation, mutating the working frame. -/
def stNormalize (s : PdState) : PdState := ⟨s.caller, normalizeHeaders s.df⟩

/-- Lines 35-40: the in-place rename, mutating the working frame. -/
def stRename (s : PdState) (kNm kSt kTmt : String) (kKl : Option String) : PdState :=
  ⟨s.caller, renameCols s.df kNm kSt kTmt kKl⟩

/-- Line 42: the TMT conversion, mutating the working frame. -/
def stConvertTmt (s : PdState) : PdState := ⟨s.caller, convertTmtCol s.df⟩

/-- Lines 66-104: appending the derived columns, mutating the working
frame. -/
def stAugment (s : PdState) (pcols : List String) (tahun : ℤ) : PdState :=
  ⟨s.caller, augment s.df pcols tahun⟩

/-- The engine `process_data` (lines 7-106).  The first component is the
returned value (augmented frame plus accepted payment columns, or the
raised error); the second component is the final content of the caller's
`df_input`. -/
def process_data (fa fb fc fd : String → Option Tanggal) (dfInput : DataFrame)
    (tahun : ℤ) (jenis : String) :
    Except PErr (DataFrame × List String) × DataFrame :=
  let s := stNormalize (stInit dfInput)
  let kNm := find_column s.df.cols aliasNmUnit
  let kSt := find_column s.df.cols aliasStatus
  let kTmt := find_column s.df.cols aliasTmt
  let kKl := if sUpper jenis = "HIBURAN" then find_column s.df.cols aliasKlasifikasi else none
  match kNm, kSt, kTmt with
  | some n, some st, some t =>
    if sUpper jenis = "HIBURAN" ∧ kKl = none then (Except.error PErr.missingKlasifikasi, s.caller)
    else
      let s1 := stConvertTmt (stRename s n st t kKl)
      let pcols := payment_cols fa fb fc fd s1.df tahun
      if pcols = [] then (Except.error PErr.noPaymentCols, s1.caller)
      else
        let s2 := stAugment s1 pcols tahun
        (Except.ok (s2.df, pcols), s2.caller)
  | _, _, _ => (Except.error PErr.missingRequired, s.caller)

/-- The three compliance categories of lines 160-162. -/
inductive Kategori where
  | tidakPatuh
  | kurangPatuh
  | patuh
deriving DecidableEq

/-- Category assignment of lines 160-162:
`pd.cut(score, bins=[-1, 50, 99.9, 100], labels=[...])` — right edge
inclusive; a value outside `(-1, 100]` falls in no bin and gets no label
(`NaN`). -/
def kategori (score : ℚ) : Option Kategori :=
  if -1 < score ∧ score ≤ 50 then some Kategori.tidakPatuh
  else if 50 < score ∧ score ≤ 99.9 then some Kategori.kurangPatuh
  else if 99.9 < score ∧ score ≤ 100 then some Kategori.patuh
  else none

/-- Extract the computed compliance score of row `i` from an engine
result. -/
def scoreAt (res : Except PErr (DataFrame × List String) × DataFrame) (i : ℕ) : Option ℚ :=
  match res.1 with
  | Except.ok (df, _) =>
    match cellOf df.cols (df.rows.getD i []) "Kepatuhan (%)" with
    | Cell.num q => some q
    | _ => none
  | Except.error _ => none

/-- Split a character list at its first dash. -/
def splitDash : List Char → Option (List Char × List Char)
  | [] => none
  | c :: rest =>
    if c = '-' then some ([], rest)
    else
      match splitDash rest with
      | some (a, b) => some (c :: a, b)
      | none => none

/-- Month number of an upper-case English month abbreviation. -/
def monthNum (s : String) : Option ℤ :=
  if s = "JAN" then some 1 else if s = "FEB" then some 2
  else if s = "MAR" then some 3 else if s = "APR" then some 4
  else if s = "MAY" then some 5 else if s = "JUN" then some 6
  else if s = "JUL" then some 7 else if s = "AUG" then some 8
  else if s = "SEP" then some 9 else if s = "OCT" then some 10
  else if s = "NOV" then some 11 else if s = "DEC" then some 12
  else none

/-- Numeric value of a decimal digit character. -/
def digitVal (c : Char) : Option ℕ :=
  if c.isDigit then some (c.toNat - 48) else none

/-- Value of a two-digit decimal string. -/
def twoDigitNat : List Char → Option ℕ
  | [a, b] =>
    match digitVal a, digitVal b with
    | some x, some y => some (x * 10 + y)
    | _, _ => none
  | _ => none

/-- Model of `pd.to_datetime(col, format='%b-%y', errors='coerce')` —
strategy (a) of the parse chain — on the upper-case `MON-YY` headers used
by the concrete datasets below: abbreviated month, dash, two-digit year
(`00`-`68` maps to `20xx`, `69`-`99` to `19xx`), day `1`.  Used only to
instantiate the parser parameters in witnesses and counterexamples; the
general theorems are parametric in the four strategies. -/
def parseBY (s : String) : Option Tanggal :=
  match splitDash s.data with
  | some (ms, ys) =>
    match monthNum ⟨ms⟩, twoDigitNat ys with
    | some m, some n =>
      some ⟨(if n ≤ 68 then ((2000 + n : ℕ) : ℤ) else ((1900 + n : ℕ) : ℤ)), m, 1⟩
    | _, _ => none
  | none => none

/-- Always-failing parse strategy: instantiates strategies (b)-(d) in the
concrete datasets below, whose candidate headers are all settled by
strategy (a) before the later strategies would be consulted. -/
def noParse (_ : String) : Option Tanggal := none

/-- Concrete dataset with twelve fiscal-2024 payment columns whose single
entity activates on 2024-11-01 (two active months) and pays in months
1-6 and 10-12: nine positive amounts, longest zero run three. -/
def dfWide : DataFrame :=
  ⟨["NM UNIT", "STATUS", "TMT", "JAN-24", "FEB-24", "MAR-24", "APR-24", "MAY-24",
      "JUN-24", "JUL-24", "AUG-24", "SEP-24", "OCT-24", "NOV-24", "DEC-24"],
    [[Cell.text "A", Cell.text "AKTIF", Cell.date ⟨2024, 11, 1⟩,
      Cell.num 1, Cell.num 1, Cell.num 1, Cell.num 1, Cell.num 1, Cell.num 1,
      Cell.num 0, Cell.num 0, Cell.num 0, Cell.num 1, Cell.num 1, Cell.num 1]]⟩

/-- Concrete dataset whose only candidate payment column carries an
unnormalised header (lower case, padded with spaces). -/
def dfLower : DataFrame :=
  ⟨["NM UNIT", "STATUS", "TMT", " jan-24 "],
    [[Cell.text "A", Cell.text "AKTIF", Cell.date ⟨2024, 2, 1⟩, Cell.num 7]]⟩

/-- Concrete dataset whose only candidate payment column parses to fiscal
year 2023, not the target 2024. -/
def dfWrongYear : DataFrame :=
  ⟨["NM UNIT", "STATUS", "TMT", "JAN-23"],
    [[Cell.text "A", Cell.text "AKTIF", Cell.date ⟨2024, 1, 1⟩, Cell.num 5]]⟩

/-- Concrete dataset with no header matching any classification alias. -/
def dfNoKlas : DataFrame :=
  ⟨["NM UNIT", "STATUS", "TMT", "JAN-24"],
    [[Cell.text "A", Cell.text "AKTIF", Cell.date ⟨2024, 1, 1⟩, Cell.num 5]]⟩
-- maxGap infrastructure
theorem gapStep_le (g m v : ℕ) :
    (gapStep (g, m) v).1 ≤ (gapStep (g, m) v).2 := by
  unfold gapStep
  split
  · simp
  · simp

theorem foldl_gap_mono (l : List ℕ) : ∀ g m : ℕ, m ≤ (List.foldl gapStep (g, m) l).2 := by
  induction l with
  | nil => intro g m; simp
  | cons v t ih =>
    intro g m
    rw [List.foldl_cons]
    by_cases hv : v = 0
    · have h1 : gapStep (g, m) v = (g + 1, max (g + 1) m) := by simp [gapStep, hv]
      rw [h1]
      exact le_trans (le_max_right (g + 1) m) (ih (g + 1) (max (g + 1) m))
    · have h1 : gapStep (g, m) v = (0, m) := by simp [gapStep, hv]
      rw [h1]
      exact ih 0 m

theorem foldl_gap_run_prefix : ∀ (k : ℕ) (l : List ℕ) (g m : ℕ), g ≤ m →
    List.replicate k 0 <+: l → g + k ≤ (List.foldl gapStep (g, m) l).2 := by
  intro k
  induction k with
  | zero =>
    intro l g m hgm _
    simpa using le_trans hgm (foldl_gap_mono l g m)
  | succ k ih =>
    intro l g m hgm hpre
    obtain ⟨r, rfl⟩ := hpre
    rw [List.replicate_succ, List.cons_append, List.foldl_cons]
    have h1 : gapStep (g, m) 0 = (g + 1, max (g + 1) m) := by simp [gapStep]
    rw [h1]
    have h2 := ih (List.replicate k 0 ++ r) (g + 1) (max (g + 1) m) (le_max_left _ _) ⟨r, rfl⟩
    omega

theorem prefix_isInfix {l t : List ℕ} (h : l <+: t) : l <:+: t := by
  obtain ⟨u, hu⟩ := h
  exact ⟨[], u, by simp only [List.nil_append]; exact hu⟩

theorem isInfix_cons {l t : List ℕ} (v : ℕ) (h : l <:+: t) : l <:+: v :: t := by
  obtain ⟨s, u, hsu⟩ := h
  exact ⟨v :: s, u, by simp [List.cons_append, hsu]⟩

theorem foldl_gap_run : ∀ (l : List ℕ) (k g m : ℕ), g ≤ m →
    List.replicate k 0 <:+: l → k ≤ (List.foldl gapStep (g, m) l).2 := by
  intro l
  induction l with
  | nil =>
    intro k g m hgm hinf
    have hk : k = 0 := by
      have := hinf.length_le
      simpa using this
    simp [hk]
  | cons v t ih =>
    intro k g m hgm hinf
    obtain ⟨s, u, hsu⟩ := hinf
    cases s with
    | nil =>
      have hpre : List.replicate k 0 <+: v :: t := ⟨u, by simpa using hsu⟩
      have := foldl_gap_run_prefix k (v :: t) g m hgm hpre
      omega
    | cons x s' =>
      have hxt : s' ++ (List.replicate k 0 ++ u) = t := by
        simp only [List.cons_append, List.append_assoc] at hsu
        exact (List.cons.injEq _ _ _ _).mp hsu |>.2
      have hinf' : List.replicate k 0 <:+: t := ⟨s', u, by rw [← hxt]; simp [List.append_assoc]⟩
      rw [List.foldl_cons]
      have hinv := gapStep_le g m v
      have := ih k (gapStep (g, m) v).1 (gapStep (g, m) v).2 hinv hinf'
      simpa using this

theorem foldl_gap_reached : ∀ (l : List ℕ) (g m : ℕ),
    (List.foldl gapStep (g, m) l).2 = m ∨
    (∃ j k, (List.foldl gapStep (g, m) l).2 = j + k ∧ j ≤ g ∧ List.replicate k 0 <+: l) ∨
    (∃ k, (List.foldl gapStep (g, m) l).2 = k ∧ List.replicate k 0 <:+: l) := by
  intro l
  induction l with
  | nil => intro g m; left; rfl
  | cons v t ih =>
    intro g m
    by_cases hv : v = 0
    · have h1 : gapStep (g, m) v = (g + 1, max (g + 1) m) := by simp [gapStep, hv]
      rw [List.foldl_cons, h1]
      rcases ih (g + 1) (max (g + 1) m) with h | ⟨j, k, hjk, hj, hpre⟩ | ⟨k, hk, hinf⟩
      · rcases Nat.le_total (g + 1) m with hle | hle
        · left; rw [h]; omega
        · right; left
          refine ⟨g, 1, by rw [h]; omega, le_rfl, ⟨t, ?_⟩⟩
          simp [hv]
      · by_cases hj0 : j = 0
        · right; right
          refine ⟨k, by omega, ?_⟩
          obtain ⟨u, hu⟩ := hpre
          exact ⟨[v], u, by simp [hu]⟩
        · right; left
          refine ⟨j - 1, k + 1, by omega, by omega, ?_⟩
          obtain ⟨u, hu⟩ := hpre
          refine ⟨u, ?_⟩
          rw [List.replicate_succ, List.cons_append, hu, hv]
      · right; right
        exact ⟨k, hk, isInfix_cons v hinf⟩
    · have h1 : gapStep (g, m) v = (0, m) := by simp [gapStep, hv]
      rw [List.foldl_cons, h1]
      rcases ih 0 m with h | ⟨j, k, hjk, hj, hpre⟩ | ⟨k, hk, hinf⟩
      · left; exact h
      · right; right
        have hj0 : j = 0 := by omega
        refine ⟨k, by omega, ?_⟩
        exact isInfix_cons v (prefix_isInfix hpre)
      · right; right
        exact ⟨k, hk, isInfix_cons v hinf⟩

theorem maxGap_reached (l : List ℕ) : List.replicate (maxGap l) 0 <:+: l := by
  unfold maxGap
  rcases foldl_gap_reached l 0 0 with h | ⟨j, k, hjk, hj, hpre⟩ | ⟨k, hk, hinf⟩
  · rw [h]; exact ⟨[], l, by simp⟩
  · have hj0 : j = 0 := by omega
    rw [hjk, hj0, Nat.zero_add]
    exact prefix_isInfix hpre
  · rw [hk]; exact hinf

theorem maxGap_ge (l : List ℕ) (m : ℕ) (h : List.replicate m 0 <:+: l) : m ≤ maxGap l :=
  foldl_gap_run l m 0 0 le_rfl h

theorem replicate_zero_infix_mono {m k : ℕ} (hmk : m ≤ k) {l : List ℕ}
    (h : List.replicate k 0 <:+: l) : List.replicate m 0 <:+: l := by
  obtain ⟨s, u, hsu⟩ := h
  refine ⟨s, List.replicate (k - m) 0 ++ u, ?_⟩
  have hrep : List.replicate k (0 : ℕ) = List.replicate m 0 ++ List.replicate (k - m) 0 := by
    rw [← List.replicate_add]
    congr 1
    omega
  rw [← hsu, hrep]
  simp only [List.append_assoc]

theorem maxGap_le_length (l : List ℕ) : maxGap l ≤ l.length := by
  have := (maxGap_reached l).length_le
  simpa using this

-- counting and rounding lemmas
theorem countP_pos_eq_sum (ps : List (Option ℚ)) :
    jumlah_pembayaran ps = (ps.map indicator).sum := by
  induction ps with
  | nil => rfl
  | cons p t ih =>
    unfold jumlah_pembayaran
    rw [List.countP_cons, List.map_cons, List.sum_cons]
    have hsum : List.countP (fun p => decide (0 < p.getD 0)) t = (t.map indicator).sum := ih
    by_cases h : 0 < p.getD 0
    · simp [indicator, h, hsum]
      omega
    · simp [indicator, h, hsum]

theorem round_mono_of_le {x y : ℚ} (h : x ≤ y) : round x ≤ round y := by
  rw [round_eq, round_eq]
  exact Int.floor_le_floor (by linarith)

theorem round2_nonneg {q : ℚ} (h : 0 ≤ q) : 0 ≤ round2 q := by
  unfold round2
  have h1 : (0 : ℤ) ≤ round (q * 100) := by
    have h2 : round ((0 : ℚ)) ≤ round (q * 100) := round_mono_of_le (by nlinarith)
    simpa using h2
  have h3 : (0 : ℚ) ≤ ((round (q * 100) : ℤ) : ℚ) := by exact_mod_cast h1
  positivity

theorem round2_le_100 {q : ℚ} (h : q ≤ 100) : round2 q ≤ 100 := by
  unfold round2
  have h1 : round (q * 100) ≤ round (((10000 : ℤ) : ℚ)) := round_mono_of_le (by push_cast; nlinarith)
  rw [round_intCast] at h1
  have h3 : ((round (q * 100) : ℤ) : ℚ) ≤ 10000 := by exact_mod_cast h1
  linarith

theorem round2_of_mul_eq {q : ℚ} {n : ℤ} (h : q * 100 = (n : ℚ)) :
    round2 q = (n : ℚ) / 100 := by
  unfold round2
  rw [h, round_intCast]

-- shared concrete evaluation: the dfWide entity scores 450
theorem dfWide_payments :
    scoreAt (process_data parseBY noParse noParse noParse dfWide 2024 ("LAINNYA")) 0 =
      some (hitung_kepatuhan (List.map (fun q => some q)
        [1, 1, 1, 1, 1, 1, 0, 0, 0, 1, 1, 1]) 2) := rfl

theorem dfWide_score :
    scoreAt (process_data parseBY noParse noParse noParse dfWide 2024 ("LAINNYA")) 0 =
      some 450 := by
  rw [dfWide_payments]
  congr 1
  have hmg : maxGap ((List.map (fun q : ℚ => some q)
      [1, 1, 1, 1, 1, 1, 0, 0, 0, 1, 1, 1]).map indicator) = 3 := by decide
  have hj : jumlah_pembayaran (List.map (fun q : ℚ => some q)
      [1, 1, 1, 1, 1, 1, 0, 0, 0, 1, 1, 1]) = 9 := by decide
  show (if (2 : ℤ) = 0 then 0
    else if maxGap ((List.map (fun q : ℚ => some q)
      [1, 1, 1, 1, 1, 1, 0, 0, 0, 1, 1, 1]).map indicator) < 3 then 100
    else round2 (((jumlah_pembayaran (List.map (fun q : ℚ => some q)
      [1, 1, 1, 1, 1, 1, 0, 0, 0, 1, 1, 1]) : ℚ)) / (((2 : ℤ) : ℚ)) * 100)) = (450 : ℚ)
  rw [hmg, hj]
  have harg : ((9 : ℕ) : ℚ) / ((2 : ℤ) : ℚ) * 100 * 100 = ((45000 : ℤ) : ℚ) := by
    push_cast
    norm_num
  rw [if_neg (by norm_num : ¬ (2 : ℤ) = 0), if_neg (by omega : ¬ (3 : ℕ) < 3),
    round2_of_mul_eq harg]
  norm_num

/-- C1 counterexample: in the successfully processed dataset `dfWide`, the
single entity's computed compliance score is `450`, outside `[0, 100]`
(nine positive payment columns against two active months, with a
three-month gap so the forgiveness branch does not apply). -/
theorem C1_counterexample :
    scoreAt (process_data parseBY noParse noParse noParse dfWide 2024 ("LAINNYA")) 0 =
      some 450 ∧ ¬ ((450 : ℚ) ≤ 100) :=
  ⟨dfWide_score, by norm_num⟩

/-- C1 as amended: the compliance score is always non-negative, and it is
at most `100` whenever the payment count does not exceed the active-month
count; the upper bound can only fail when `paymentCount > activeMonths`. -/
theorem C1_amended_bounds (ps : List (Option ℚ)) (aktif : ℤ) (h : 0 ≤ aktif) :
    0 ≤ hitung_kepatuhan ps aktif ∧
      ((jumlah_pembayaran ps : ℤ) ≤ aktif → hitung_kepatuhan ps aktif ≤ 100) := by
  unfold hitung_kepatuhan
  by_cases h0 : aktif = 0
  · rw [if_pos h0]
    exact ⟨le_rfl, fun _ => by norm_num⟩
  · rw [if_neg h0]
    by_cases hmg : maxGap (ps.map indicator) < 3
    · rw [if_pos hmg]
      exact ⟨by norm_num, fun _ => le_rfl⟩
    · rw [if_neg hmg]
      have hpos : (0 : ℚ) < ((aktif : ℤ) : ℚ) := by
        have h1 : 0 < aktif := lt_of_le_of_ne h (Ne.symm h0)
        exact_mod_cast h1
      constructor
      · apply round2_nonneg
        positivity
      · intro hle
        apply round2_le_100
        have hle2 : ((jumlah_pembayaran ps : ℚ)) ≤ ((aktif : ℤ) : ℚ) := by
          exact_mod_cast hle
        have hdiv : ((jumlah_pembayaran ps : ℚ)) / ((aktif : ℤ) : ℚ) ≤ 1 := by
          rw [div_le_one hpos]
          exact hle2
        nlinarith

/-- Witness for the amended C1 bound at a concrete input. -/
theorem C1_amended_bounds_witness :
    0 ≤ hitung_kepatuhan ([some 1]) 1 ∧ hitung_kepatuhan ([some 1]) 1 ≤ 100 :=
  ⟨(C1_amended_bounds ([some 1]) 1 (by norm_num)).1,
    (C1_amended_bounds ([some 1]) 1 (by norm_num)).2 (by decide)⟩

/-- C2: the score rule, in evaluation order.  `maxGap` is exactly the
length of the longest run of consecutive zeros in the indicator sequence
(characterised by the first conjunct: an `m`-run of zeros occurs iff
`m ≤ maxGap`), the payment count is the count of strictly positive parsed
amounts (equal to the indicator sum), and the score is `0` when
`activeMonths = 0`, else `100` when `maxGap < 3`, else the rounded payment
ratio. -/
theorem C2_scoring_rule (ps : List (Option ℚ)) (aktif : ℤ) (m : ℕ) :
    (m ≤ maxGap (ps.map indicator) ↔ List.replicate m 0 <:+: ps.map indicator)
    ∧ jumlah_pembayaran ps = (ps.map indicator).sum
    ∧ hitung_kepatuhan ps aktif =
        (if aktif = 0 then 0
         else if maxGap (ps.map indicator) < 3 then 100
         else round2 (((jumlah_pembayaran ps : ℚ)) / ((aktif : ℚ)) * 100)) := by
  refine ⟨⟨fun h => replicate_zero_infix_mono h (maxGap_reached _),
    fun h => maxGap_ge _ m h⟩, countP_pos_eq_sum ps, rfl⟩

/-- C9: with at most two payment columns the indicator sequence has length
at most two, so the longest zero run is under the forgiveness threshold
and every entity with nonzero active months scores exactly `100` — even
when every amount is zero, null or unparseable. -/
theorem C9_few_columns_full_score (ps : List (Option ℚ)) (aktif : ℤ)
    (hlen : ps.length ≤ 2) (hak : ¬ aktif = 0) :
    hitung_kepatuhan ps aktif = 100 := by
  unfold hitung_kepatuhan
  have h3 : maxGap (ps.map indicator) < 3 := by
    have h1 := maxGap_le_length (ps.map indicator)
    rw [List.length_map] at h1
    omega
  rw [if_neg hak, if_pos h3]

/-- Witness for C9: two payment columns, one zero and one unparseable
amount, five active months — the score is still `100`. -/
theorem C9_witness : hitung_kepatuhan ([some 0, none]) 5 = 100 :=
  C9_few_columns_full_score ([some 0, none]) 5 (by decide) (by decide)

/-- C3 counterexample: the reachable score `450` (see the `dfWide`
dataset) falls outside every bin of `pd.cut(bins=[-1, 50, 99.9, 100])`, so
the entity receives no category label at all. -/
theorem C3_counterexample :
    scoreAt (process_data parseBY noParse noParse noParse dfWide 2024 ("LAINNYA")) 0 =
      some 450 ∧ kategori 450 = none := by
  refine ⟨dfWide_score, ?_⟩
  unfold kategori
  rw [if_neg (by norm_num), if_neg (by norm_num), if_neg (by norm_num)]

/-- C3 as amended: for scores inside the cut range `(-1, 100]` — which
contains every score in `[0, 100]` — the label follows the
right-edge-inclusive bins, with `50` mapped to NonCompliant and `100` to
Compliant; a score above `100` (reachable, see the counterexample) falls
in no bin and receives no label. -/
theorem C3_amended_bins (s : ℚ) :
    (-1 < s → s ≤ 50 → kategori s = some Kategori.tidakPatuh)
    ∧ (50 < s → s ≤ 99.9 → kategori s = some Kategori.kurangPatuh)
    ∧ (99.9 < s → s ≤ 100 → kategori s = some Kategori.patuh)
    ∧ (100 < s → kategori s = none)
    ∧ kategori 50 = some Kategori.tidakPatuh
    ∧ kategori 100 = some Kategori.patuh := by
  refine ⟨?_, ?_, ?_, ?_, ?_, ?_⟩
  · intro h1 h2
    unfold kategori
    rw [if_pos ⟨h1, h2⟩]
  · intro h1 h2
    unfold kategori
    rw [if_neg (by push_neg; intro _; linarith), if_pos ⟨h1, h2⟩]
  · intro h1 h2
    unfold kategori
    rw [if_neg (by push_neg; intro _; nlinarith [show (0:ℚ) < 49.9 by norm_num]),
      if_neg (by push_neg; intro _; linarith), if_pos ⟨h1, h2⟩]
  · intro h1
    unfold kategori
    rw [if_neg (by push_neg; intro _; linarith),
      if_neg (by push_neg; intro _; nlinarith [show (0:ℚ) < 0.1 by norm_num]),
      if_neg (by push_neg; intro _; linarith)]
  · unfold kategori
    rw [if_pos (by norm_num)]
  · unfold kategori
    rw [if_neg (by norm_num), if_neg (by norm_num), if_pos (by norm_num)]

/-- Witness for the amended C3 bins at concrete scores. -/
theorem C3_amended_bins_witness :
    kategori 30 = some Kategori.tidakPatuh ∧ kategori 75 = some Kategori.kurangPatuh
    ∧ kategori 99.95 = some Kategori.patuh ∧ kategori 450 = none :=
  ⟨(C3_amended_bins 30).1 (by norm_num) (by norm_num),
    (C3_amended_bins 75).2.1 (by norm_num) (by norm_num),
    (C3_amended_bins 99.95).2.2.1 (by norm_num) (by norm_num),
    (C3_amended_bins 450).2.2.2.1 (by norm_num)⟩

/-- C4: the active-month computation is total — null or unparseable
activation dates give `0`; any date gives the clamped inclusive month
span from `max(Jan 1, activationDate)` to `Dec 31` of the fiscal year;
activation on January 1 of the fiscal year gives `12`; any valid calendar
date after December 31 of the fiscal year gives `0`. -/
theorem C4_active_months (tahun : ℤ) :
    bulan_aktif tahun none = 0
    ∧ (∀ t : Tanggal, bulan_aktif tahun (some t) =
        max 0 ((tahun - (maxTanggal ⟨tahun, 1, 1⟩ t).year) * 12
          + (12 - (maxTanggal ⟨tahun, 1, 1⟩ t).month) + 1))
    ∧ bulan_aktif tahun (some ⟨tahun, 1, 1⟩) = 12
    ∧ (∀ t : Tanggal, 1 ≤ t.month → t.month ≤ 12 → t.day ≤ 31 →
        tanggalLt ⟨tahun, 12, 31⟩ t = true → bulan_aktif tahun (some t) = 0) := by
  refine ⟨rfl, fun t => rfl, ?_, ?_⟩
  · show max 0 ((tahun - (maxTanggal ⟨tahun, 1, 1⟩ ⟨tahun, 1, 1⟩).year) * 12
      + (12 - (maxTanggal ⟨tahun, 1, 1⟩ ⟨tahun, 1, 1⟩).month) + 1) = 12
    rw [show maxTanggal ⟨tahun, 1, 1⟩ ⟨tahun, 1, 1⟩ = ⟨tahun, 1, 1⟩ from ite_self _]
    show max 0 ((tahun - tahun) * 12 + (12 - 1) + 1) = 12
    omega
  · intro t h1 h2 h3 hlt
    have hprop : tahun < t.year ∨ (tahun = t.year ∧
        (12 < t.month ∨ (12 = t.month ∧ 31 < t.day))) := by
      have := of_decide_eq_true hlt
      exact this
    have hy : tahun < t.year := by
      rcases hprop with h | ⟨_, h | ⟨_, h⟩⟩
      · exact h
      · omega
      · omega
    have hle : tanggalLe ⟨tahun, 1, 1⟩ t = true := decide_eq_true (Or.inl hy)
    show max 0 ((tahun - (maxTanggal ⟨tahun, 1, 1⟩ t).year) * 12
      + (12 - (maxTanggal ⟨tahun, 1, 1⟩ t).month) + 1) = 0
    rw [show maxTanggal ⟨tahun, 1, 1⟩ t = t from by unfold maxTanggal; rw [hle]; rfl]
    have h12 : (tahun - t.year) * 12 ≤ -12 := by nlinarith
    omega

/-- Witness for C4 at concrete dates: activation after the fiscal year
gives zero months, activation on January 1 gives twelve, a null date gives
zero. -/
theorem C4_active_months_witness :
    bulan_aktif 2024 (some ⟨2025, 3, 10⟩) = 0 ∧ bulan_aktif 2024 (some ⟨2024, 1, 1⟩) = 12
    ∧ bulan_aktif 2024 none = 0 :=
  ⟨(C4_active_months 2024).2.2.2 ⟨2025, 3, 10⟩ (by norm_num) (by norm_num) (by norm_num)
      (by decide),
    (C4_active_months 2024).2.2.1, (C4_active_months 2024).1⟩

/-- C5: a non-canonical column is accepted exactly when the four-strategy
chain (first success wins, as the last four conjuncts characterise)
parses its stripped header, the parsed year equals the fiscal year, and
some cell of the column parses as a number. -/
theorem C5_payment_acceptance (fa fb fc fd : String → Option Tanggal) (df : DataFrame)
    (tahun : ℤ) (col : String) (hmem : col ∈ df.cols) (hnc : col ∉ canonicalCols) :
    (col ∈ payment_cols fa fb fc fd df tahun ↔
      ∃ d, parseChain fa fb fc fd (sStrip col) = some d ∧ d.year = tahun ∧
        (colCells df col).any (fun c => (toNumeric c).isSome) = true)
    ∧ (∀ s d, fa s = some d → parseChain fa fb fc fd s = some d)
    ∧ (∀ s d, fa s = none → fb s = some d → parseChain fa fb fc fd s = some d)
    ∧ (∀ s d, fa s = none → fb s = none → fc s = some d → parseChain fa fb fc fd s = some d)
    ∧ (∀ s, fa s = none → fb s = none → fc s = none → parseChain fa fb fc fd s = fd s) := by
  refine ⟨?_, ?_, ?_, ?_, ?_⟩
  · unfold payment_cols
    rw [List.mem_filter]
    unfold acceptCol
    rw [if_neg hnc]
    constructor
    · rintro ⟨-, hacc⟩
      rcases hpc : parseChain fa fb fc fd (sStrip col) with _ | d
      · rw [hpc] at hacc
        exact absurd hacc (by simp)
      · rw [hpc] at hacc
        refine ⟨d, rfl, ?_⟩
        simpa [Bool.and_eq_true, decide_eq_true_eq] using hacc
    · rintro ⟨d, hpc, hy, hany⟩
      refine ⟨hmem, ?_⟩
      rw [hpc]
      simp [Bool.and_eq_true, decide_eq_true_eq, hy, hany]
  · intro s d h
    unfold parseChain
    rw [h]
  · intro s d h1 h2
    unfold parseChain
    rw [h1, h2]
  · intro s d h1 h2 h3
    unfold parseChain
    rw [h1, h2, h3]
  · intro s h1 h2 h3
    unfold parseChain
    rw [h1, h2, h3]

/-- Witness for C5: the column `JAN-24` of the concrete dataset satisfies
all three conditions and is accepted. -/
theorem C5_payment_acceptance_witness :
    ("JAN-24") ∈ payment_cols parseBY noParse noParse noParse dfNoKlas 2024 :=
  (C5_payment_acceptance parseBY noParse noParse noParse dfNoKlas 2024 ("JAN-24")
    (by decide) (by decide)).1.mpr ⟨⟨2024, 1, 1⟩, by decide, by decide, by decide⟩

/-- C6: once the required canonical fields resolve, the engine fails with
the no-payment-columns error exactly when the accepted payment-column set
is empty, and in that case no augmented dataset is produced. -/
theorem C6_no_payment_columns (fa fb fc fd : String → Option Tanggal) (dfInput : DataFrame)
    (tahun : ℤ) (jenis : String) (n st t : String)
    (hn : find_column (normalizeHeaders dfInput).cols aliasNmUnit = some n)
    (hs : find_column (normalizeHeaders dfInput).cols aliasStatus = some st)
    (ht : find_column (normalizeHeaders dfInput).cols aliasTmt = some t)
    (hkl : ¬ (sUpper jenis = "HIBURAN" ∧
      (if sUpper jenis = "HIBURAN"
        then find_column (normalizeHeaders dfInput).cols aliasKlasifikasi
        else none) = none)) :
    ((process_data fa fb fc fd dfInput tahun jenis).1 = Except.error PErr.noPaymentCols ↔
      payment_cols fa fb fc fd
        (convertTmtCol (renameCols (normalizeHeaders dfInput) n st t
          (if sUpper jenis = "HIBURAN"
            then find_column (normalizeHeaders dfInput).cols aliasKlasifikasi
            else none))) tahun = [])
    ∧ ((process_data fa fb fc fd dfInput tahun jenis).1 = Except.error PErr.noPaymentCols →
        ¬ ∃ out, (process_data fa fb fc fd dfInput tahun jenis).1 = Except.ok out) := by
  have hbody : process_data fa fb fc fd dfInput tahun jenis =
      (if sUpper jenis = "HIBURAN" ∧
          (if sUpper jenis = "HIBURAN"
            then find_column (normalizeHeaders dfInput).cols aliasKlasifikasi
            else none) = none
        then (Except.error PErr.missingKlasifikasi, dfInput)
        else if payment_cols fa fb fc fd
            (convertTmtCol (renameCols (normalizeHeaders dfInput) n st t
              (if sUpper jenis = "HIBURAN"
                then find_column (normalizeHeaders dfInput).cols aliasKlasifikasi
                else none))) tahun = []
          then (Except.error PErr.noPaymentCols, dfInput)
          else (Except.ok
            (augment
              (convertTmtCol (renameCols (normalizeHeaders dfInput) n st t
                (if sUpper jenis = "HIBURAN"
                  then find_column (normalizeHeaders dfInput).cols aliasKlasifikasi
                  else none)))
              (payment_cols fa fb fc fd
                (convertTmtCol (renameCols (normalizeHeaders dfInput) n st t
                  (if sUpper jenis = "HIBURAN"
                    then find_column (normalizeHeaders dfInput).cols aliasKlasifikasi
                    else none))) tahun) tahun,
              payment_cols fa fb fc fd
                (convertTmtCol (renameCols (normalizeHeaders dfInput) n st t
                  (if sUpper jenis = "HIBURAN"
                    then find_column (normalizeHeaders dfInput).cols aliasKlasifikasi
                    else none))) tahun), dfInput)) := by
    simp only [process_data, stInit, stNormalize, stRename, stConvertTmt, stAugment]
    rw [hn, hs, ht]
  rw [hbody, if_neg hkl]
  by_cases hp : payment_cols fa fb fc fd
      (convertTmtCol (renameCols (normalizeHeaders dfInput) n st t
        (if sUpper jenis = "HIBURAN"
          then find_column (normalizeHeaders dfInput).cols aliasKlasifikasi
          else none))) tahun = []
  · rw [if_pos hp]
    refine ⟨by simp [hp], ?_⟩
    rintro - ⟨out, hout⟩
    simp at hout
  · rw [if_neg hp]
    refine ⟨by simp [hp], ?_⟩
    rintro h -
    simp at h

/-- Witness for C6 on the dataset whose only candidate column parses to
fiscal year 2023 while 2024 is requested: the engine raises the
no-payment-columns error. -/
theorem C6_no_payment_columns_witness :
    (process_data parseBY noParse noParse noParse dfWrongYear 2024 ("LAINNYA")).1 =
      Except.error PErr.noPaymentCols :=
  (C6_no_payment_columns parseBY noParse noParse noParse dfWrongYear 2024 ("LAINNYA")
    ("NM UNIT") ("STATUS") ("TMT") (by decide) (by decide) (by decide)
    (by decide)).1.mpr (by decide)

/-- C7 (code bug): the input enumeration's entertainment variant is
`JASA KESENIAN DAN HIBURAN`, whose upper case differs from the literal
`HIBURAN` the engine compares against, so the classification requirement
is never enforced for it: the engine succeeds on a dataset carrying no
classification alias at all. -/
theorem C7_entertainment_unchecked :
    sUpper ("JASA KESENIAN DAN HIBURAN") ≠ ("HIBURAN")
    ∧ find_column (normalizeHeaders dfNoKlas).cols aliasKlasifikasi = none
    ∧ ∃ out, (process_data parseBY noParse noParse noParse dfNoKlas 2024
        ("JASA KESENIAN DAN HIBURAN")).1 = Except.ok out :=
  ⟨by decide, by decide, ⟨_, rfl⟩⟩

/-- C10: the caller's input frame is returned unchanged by every branch of
the engine — all header normalisation, renaming and column additions act
on the working copy made on line 8. -/
theorem C10_input_frame_unchanged (fa fb fc fd : String → Option Tanggal)
    (dfInput : DataFrame) (tahun : ℤ) (jenis : String) :
    (process_data fa fb fc fd dfInput tahun jenis).2 = dfInput := by
  simp only [process_data, stInit, stNormalize, stRename, stConvertTmt, stAugment]
  repeat' split
  all_goals rfl

/-- C8 counterexample: the only candidate header of `dfLower` is the
string ` jan-24 ` (lower case, padded), yet the returned payment-column
identifier is the normalised `JAN-24`, which never appears among the
input's original headers. -/
theorem C8_counterexample :
    (∃ dfOut, (process_data parseBY noParse noParse noParse dfLower 2024 ("LAINNYA")).1 =
      Except.ok (dfOut, [("JAN-24")]))
    ∧ (" jan-24 ") ∈ dfLower.cols
    ∧ ("JAN-24") ∉ dfLower.cols :=
  ⟨⟨_, rfl⟩, by decide, by decide⟩

/-- C8 as amended: the accepted identifiers are a sublist of the working
frame's headers — hence in original left-to-right order, since the working
headers are the positional image of the input headers — but each
identifier is the stripped-and-uppercased form of its original header, not
the original string itself. -/
theorem C8_normalized_headers_in_order (fa fb fc fd : String → Option Tanggal)
    (dfInput : DataFrame) (tahun : ℤ) (kNm kSt kTmt : String) (kKl : Option String) :
    (payment_cols fa fb fc fd
        (convertTmtCol (renameCols (normalizeHeaders dfInput) kNm kSt kTmt kKl))
        tahun).Sublist
      (convertTmtCol (renameCols (normalizeHeaders dfInput) kNm kSt kTmt kKl)).cols
    ∧ (convertTmtCol (renameCols (normalizeHeaders dfInput) kNm kSt kTmt kKl)).cols
        = dfInput.cols.map (fun c => renameOne kNm kSt kTmt kKl (sUpper (sStrip c)))
    ∧ ∀ col ∈ payment_cols fa fb fc fd
        (convertTmtCol (renameCols (normalizeHeaders dfInput) kNm kSt kTmt kKl)) tahun,
        ∃ orig ∈ dfInput.cols, col = sUpper (sStrip orig) := by
  have hcols : (convertTmtCol (renameCols (normalizeHeaders dfInput) kNm kSt kTmt kKl)).cols
      = dfInput.cols.map (fun c => renameOne kNm kSt kTmt kKl (sUpper (sStrip c))) := by
    simp [convertTmtCol, renameCols, normalizeHeaders, List.map_map, Function.comp]
  refine ⟨List.filter_sublist _, hcols, ?_⟩
  intro col hcol
  have hmem := List.mem_filter.mp hcol
  have hnc : col ∉ canonicalCols := by
    intro hc
    have hacc := hmem.2
    unfold acceptCol at hacc
    rw [if_pos hc] at hacc
    exact absurd hacc (by simp)
  have hmem2 : col ∈ dfInput.cols.map (fun c => renameOne kNm kSt kTmt kKl (sUpper (sStrip c))) := by
    rw [← hcols]
    exact hmem.1
  rcases List.mem_map.mp hmem2 with ⟨orig, ho, hoeq⟩
  refine ⟨orig, ho, ?_⟩
  unfold renameOne at hoeq
  split_ifs at hoeq
  · rw [← hoeq] at hnc
    exact absurd (by decide) hnc
  · rw [← hoeq] at hnc
    exact absurd (by decide) hnc
  · rw [← hoeq] at hnc
    exact absurd (by decide) hnc
  · rw [← hoeq] at hnc
    exact absurd (by decide) hnc
  · exact hoeq.symm

/-- Witness for the amended C8 on the concrete dataset: the returned
identifier `JAN-24` is the normalised form of the original header
` jan-24 `, and the accepted list is a sublist of the working headers. -/
theorem C8_normalized_headers_witness :
    (payment_cols parseBY noParse noParse noParse
        (convertTmtCol (renameCols (normalizeHeaders dfLower) ("NM UNIT") ("STATUS") ("TMT") none))
        2024).Sublist
      (convertTmtCol (renameCols (normalizeHeaders dfLower) ("NM UNIT") ("STATUS") ("TMT") none)).cols
    ∧ ∃ orig ∈ dfLower.cols, ("JAN-24") = sUpper (sStrip orig) :=
  ⟨(C8_normalized_headers_in_order parseBY noParse noParse noParse dfLower 2024
      ("NM UNIT") ("STATUS") ("TMT") none).1,
    (C8_normalized_headers_in_order parseBY noParse noParse noParse dfLower 2024
      ("NM UNIT") ("STATUS") ("TMT") none).2.2 ("JAN-24") (by decide)⟩
